import Mathlib

/-!
# Verification of the spoolbuddy backend core

Shallow embedding of the session-detection state machine, consumption
estimator, display liveness monitor, command mailbox and websocket
broadcast hub of the spoolbuddy backend (`backend/usage_tracker.py` and
`backend/main.py`), together with proofs of the specified properties.

Python dictionaries are modelled as association lists with
overwrite-on-insert semantics (`dinsert`), first-match lookup (`dlookup`)
and key removal (`derase`); Python `None` becomes `Option`.
-/

namespace SpoolBuddy

section Dict

variable {K V : Type} [DecidableEq K]

/-- Dictionary lookup on an association list (first match wins; keys are
kept unique by `dinsert`). Models `d.get(k)` / `d[k]`. -/
def dlookup (k : K) : List (K × V) → Option V
  | [] => none
  | p :: rest => if p.1 = k then some p.2 else dlookup k rest

/-- Dictionary insertion: overwrites any existing binding of the key.
Models `d[k] = v`. -/
def dinsert (d : List (K × V)) (k : K) (v : V) : List (K × V) :=
  (k, v) :: d.filter (fun p => decide (p.1 ≠ k))

/-- Dictionary removal of a key. Models `d.pop(k, None)` (the removal part). -/
def derase (d : List (K × V)) (k : K) : List (K × V) :=
  d.filter (fun p => decide (p.1 ≠ k))

theorem dlookup_nil (k : K) : dlookup k ([] : List (K × V)) = none := rfl

theorem dlookup_cons (k : K) (p : K × V) (rest : List (K × V)) :
    dlookup k (p :: rest) = if p.1 = k then some p.2 else dlookup k rest := rfl

theorem dlookup_filter_ne (d : List (K × V)) (k k' : K) :
    dlookup k' (d.filter (fun p => decide (p.1 ≠ k))) =
      if k' = k then none else dlookup k' d := by
  induction d with
  | nil => simp [dlookup]
  | cons p rest ih =>
    rw [List.filter_cons]
    by_cases hpk : p.1 = k
    · rw [if_neg (by simp [hpk]), ih]
      by_cases hk : k' = k
      · simp [hk]
      · rw [if_neg hk, if_neg hk, dlookup_cons,
          if_neg (fun h => hk (by rw [hpk] at h; exact h.symm))]
    · rw [if_pos (by simp [hpk]), dlookup_cons, ih, dlookup_cons]
      by_cases hpk' : p.1 = k'
      · rw [if_pos hpk',
          if_neg (fun h : k' = k => hpk (by rw [← h]; exact hpk')), if_pos hpk']
      · rw [if_neg hpk']
        by_cases hk : k' = k <;> simp [hk, hpk']

theorem dlookup_dinsert (d : List (K × V)) (k : K) (v : V) (k' : K) :
    dlookup k' (dinsert d k v) = if k' = k then some v else dlookup k' d := by
  rw [dinsert, dlookup_cons, dlookup_filter_ne]
  by_cases hk : k' = k
  · simp [hk]
  · rw [if_neg (fun h : k = k' => hk h.symm), if_neg hk, if_neg hk]

theorem dlookup_derase (d : List (K × V)) (k k' : K) :
    dlookup k' (derase d k) = if k' = k then none else dlookup k' d := by
  rw [derase, dlookup_filter_ne]

theorem dlookup_eq_none_of_not_mem_keys {d : List (K × V)} {k : K}
    (h : k ∉ d.map Prod.fst) : dlookup k d = none := by
  induction d with
  | nil => rfl
  | cons p rest ih =>
    simp only [List.map_cons, List.mem_cons] at h
    push_neg at h
    rw [dlookup_cons, if_neg (fun hc => h.1 hc.symm)]
    exact ih h.2

theorem derase_of_dlookup_none {d : List (K × V)} {k : K}
    (h : dlookup k d = none) : derase d k = d := by
  induction d with
  | nil => rfl
  | cons p rest ih =>
    rw [dlookup_cons] at h
    by_cases hpk : p.1 = k
    · rw [if_pos hpk] at h; exact absurd h (by simp)
    · rw [if_neg hpk] at h
      rw [derase, List.filter_cons, if_pos (by simp [hpk])]
      have := ih h
      rw [derase] at this
      rw [this]

end Dict

/-! ## Data model (`backend/models.py` fields used by the tracker) -/

/-- One AMS tray slot: `tray_id` and the reported remain percentage
(`None` when the device reports no estimate). -/
structure Tray where
  tray_id : Nat
  remain : Option Int
deriving DecidableEq

/-- One AMS unit: its id and its trays. -/
structure AmsUnit where
  id : Nat
  trays : List Tray
deriving DecidableEq

/-- The fields of `PrinterState` read by the usage tracker and `main.py`. -/
structure PrinterState where
  gcode_state : String
  subtask_name : Option String
  print_progress : Option Int
  ams_units : List AmsUnit
  vt_tray : Option Tray
  tray_now : Option Nat
deriving DecidableEq

/-- `PrintSession` from `backend/usage_tracker.py`: one tracked print. -/
structure PrintSession where
  printer_serial : String
  print_name : String
  start_progress : Int := 0
  tray_remain_start : List ((Nat × Nat) × Int) := []
  active_tray : Option Nat := none
deriving DecidableEq

/-- `UsageTracker` state. The Python `_on_usage_logged : Callable | None` and
`_loop : AbstractEventLoop | None` fields only matter through their
presence (`is not None`), so they are modelled as Booleans. -/
structure UsageTracker where
  sessions : List (String × PrintSession) := []
  hasCallback : Bool := false
  hasLoop : Bool := false
deriving DecidableEq

/-- The data handed to the usage callback on print end:
`self._on_usage_logged(serial, session.print_name, tray_usage)`. -/
structure UsageEvent where
  serial : String
  print_name : String
  tray_usage : List ((Nat × Nat) × Int)
deriving DecidableEq

/-! ## Usage tracker operations (`backend/usage_tracker.py`) -/

/-- The tray-remain capture loop shared by `_on_print_start` (lines 78-89)
and `_on_print_end` (lines 114-124): collect `(ams_id, tray_id) -> remain`
for every tray whose remain is non-null, then the virtual tray under the
sentinel key `(255, 0)` when present with a non-null remain. -/
def collectRemain (state : PrinterState) : List ((Nat × Nat) × Int) :=
  let base := state.ams_units.foldl
    (fun acc u => u.trays.foldl
      (fun acc2 t =>
        match t.remain with
        | some r => dinsert acc2 (u.id, t.tray_id) r
        | none => acc2) acc) []
  match state.vt_tray with
  | some vt =>
    match vt.remain with
    | some r => dinsert base (255, 0) r
    | none => base
  | none => base

/-- `_on_print_start`: build a fresh `PrintSession` and store it under the
serial (overwriting any existing one). `subtask_name or "Unknown"` and
`print_progress or 0` follow Python truthiness. -/
def onPrintStart (t : UsageTracker) (serial : String) (state : PrinterState) :
    UsageTracker :=
  let print_name :=
    match state.subtask_name with
    | some n => if n = "" then "Unknown" else n
    | none => "Unknown"
  let session : PrintSession :=
    { printer_serial := serial
      print_name := print_name
      start_progress := state.print_progress.getD 0
      tray_remain_start := collectRemain state
      active_tray := state.tray_now }
  { t with sessions := dinsert t.sessions serial session }

/-- The per-tray step of the delta loop in `_on_print_end` (lines 127-136):
look up the end remain for a baseline key; when present and strictly below
the start remain, record the (strictly positive) difference. -/
def usageStep (current : List ((Nat × Nat) × Int))
    (acc : List ((Nat × Nat) × Int)) (p : (Nat × Nat) × Int) :
    List ((Nat × Nat) × Int) :=
  match dlookup p.1 current with
  | some endRemain =>
    if endRemain < p.2 then
      let used := p.2 - endRemain
      if 0 < used then dinsert acc p.1 used else acc
    else acc
  | none => acc

/-- The `tray_usage` dictionary built by `_on_print_end` from the session's
start remains and the ending snapshot's current remains. -/
def computeTrayUsage (baseline current : List ((Nat × Nat) × Int)) :
    List ((Nat × Nat) × Int) :=
  baseline.foldl (usageStep current) []

/-- `_on_print_end`: pop the session (no-op and no event when absent);
compute `tray_usage`; the callback fires only when `tray_usage` is
non-empty and both a callback and an event loop are configured.
`success` is only used for logging in the source and carries no effect. -/
def onPrintEnd (t : UsageTracker) (serial : String) (state : PrinterState)
    (success : Bool) : UsageTracker × Option UsageEvent :=
  match dlookup serial t.sessions with
  | none => (t, none)
  | some session =>
    let t' := { t with sessions := derase t.sessions serial }
    let current_remain := collectRemain state
    let tray_usage := computeTrayUsage session.tray_remain_start current_remain
    if ¬ tray_usage.isEmpty ∧ t.hasCallback ∧ t.hasLoop then
      (t', some ⟨serial, session.print_name, tray_usage⟩)
    else
      (t', none)

/-- Which lifecycle handler `on_state_update` invoked. -/
inductive LifecycleOutcome where
  | sessionStart
  | sessionEnd (success : Bool)
deriving DecidableEq

/-- `UsageTracker.on_state_update` (lines 51-72): the three-way `elif`
chain on `(gcode_state, prev_gcode_state)`; `prev_gcode_state` is `None`
when no previous state exists. Returns the updated tracker, the usage
event emitted by `_on_print_end` (if any), and which handler ran. -/
def on_state_update (t : UsageTracker) (serial : String) (state : PrinterState)
    (prev : Option PrinterState) :
    UsageTracker × Option UsageEvent × Option LifecycleOutcome :=
  let g := state.gcode_state
  let pg := prev.map (fun s => s.gcode_state)
  if g = "RUNNING" ∧ pg ≠ some "RUNNING" then
    (onPrintStart t serial state, none, some .sessionStart)
  else if (g = "FINISH" ∨ g = "IDLE") ∧ pg = some "RUNNING" then
    let r := onPrintEnd t serial state (g == "FINISH")
    (r.1, r.2, some (.sessionEnd (g == "FINISH")))
  else if g = "FINISH" ∧ pg = some "PAUSE" then
    let r := onPrintEnd t serial state true
    (r.1, r.2, some (.sessionEnd true))
  else
    (t, none, none)

/-- `estimate_weight_from_percent` (lines 162-181): the remain percentage
is relative to the labelled filament weight only; `core_weight` is
accepted but unused. Real arithmetic is modelled over `ℚ`. -/
def estimate_weight_from_percent (remain_percent_used : Int)
    (label_weight : Int := 1000) (core_weight : Int := 250) : ℚ :=
  ((remain_percent_used : ℚ) / (100 : ℚ)) * (label_weight : ℚ)

/-! ## Lemmas about the usage-delta computation -/

theorem keys_nodup_dinsert {K V : Type} [DecidableEq K]
    {d : List (K × V)} (k : K) (v : V) (h : (d.map Prod.fst).Nodup) :
    ((dinsert d k v).map Prod.fst).Nodup := by
  rw [dinsert, List.map_cons]
  refine List.nodup_cons.mpr ⟨?_, h.sublist ((List.filter_sublist d).map _)⟩
  intro hk
  rcases List.mem_map.mp hk with ⟨pr, hpr, hfst⟩
  have hne := List.of_mem_filter hpr
  simp only [decide_eq_true_eq] at hne
  exact hne hfst

theorem foldl_preserves_keys_nodup {α K V : Type} [DecidableEq K]
    (f : List (K × V) → α → List (K × V))
    (hf : ∀ acc x, (acc.map Prod.fst).Nodup → ((f acc x).map Prod.fst).Nodup) :
    ∀ (l : List α) (acc : List (K × V)),
      (acc.map Prod.fst).Nodup → ((l.foldl f acc).map Prod.fst).Nodup := by
  intro l
  induction l with
  | nil => intro acc h; exact h
  | cons x xs ih => intro acc h; exact ih (f acc x) (hf acc x h)

/-- The remain-capture loops always build a dictionary with distinct keys,
so the nodup hypothesis of the usage characterisation holds for every
baseline a session can actually carry (`tray_remain_start` is always
`collectRemain` of the starting snapshot). -/
theorem collectRemain_keys_nodup (state : PrinterState) :
    ((collectRemain state).map Prod.fst).Nodup := by
  have hbase : ((state.ams_units.foldl
      (fun acc u => u.trays.foldl
        (fun acc2 t =>
          match t.remain with
          | some r => dinsert acc2 (u.id, t.tray_id) r
          | none => acc2) acc) []).map Prod.fst).Nodup := by
    refine foldl_preserves_keys_nodup _ ?_ state.ams_units [] (by simp)
    intro acc u hacc
    refine foldl_preserves_keys_nodup _ ?_ u.trays acc hacc
    intro acc2 t h2
    cases ht : t.remain
    · simpa [ht] using h2
    · simpa [ht] using keys_nodup_dinsert _ _ h2
  cases hvt : state.vt_tray with
  | none => simpa [collectRemain, hvt] using hbase
  | some vt =>
    cases hr : vt.remain with
    | none => simpa [collectRemain, hvt, hr] using hbase
    | some r =>
      simpa [collectRemain, hvt, hr] using keys_nodup_dinsert (255, 0) r hbase

theorem lookup_usageStep_ne (current acc : List ((Nat × Nat) × Int))
    (p : (Nat × Nat) × Int) (k : Nat × Nat) (hk : ¬ k = p.1) :
    dlookup k (usageStep current acc p) = dlookup k acc := by
  cases hcur : dlookup p.1 current with
  | none => simp [usageStep, hcur]
  | some c =>
    simp only [usageStep, hcur]
    by_cases h2 : c < p.2
    · rw [if_pos h2, if_pos (show (0 : Int) < p.2 - c by omega),
        dlookup_dinsert, if_neg hk]
    · rw [if_neg h2]

theorem lookup_usageStep_self (current acc : List ((Nat × Nat) × Int))
    (p : (Nat × Nat) × Int) :
    dlookup p.1 (usageStep current acc p) =
      match dlookup p.1 current with
      | some c => if c < p.2 then some (p.2 - c) else dlookup p.1 acc
      | none => dlookup p.1 acc := by
  cases hcur : dlookup p.1 current with
  | none => simp [usageStep, hcur]
  | some c =>
    simp only [usageStep, hcur]
    by_cases h2 : c < p.2
    · have h3 : (0 : Int) < p.2 - c := by omega
      simp [h2, h3, dlookup_dinsert]
    · simp [h2]

theorem dlookup_foldl_usageStep (current baseline : List ((Nat × Nat) × Int))
    (k : Nat × Nat) :
    ∀ acc : List ((Nat × Nat) × Int), (baseline.map Prod.fst).Nodup →
    dlookup k (baseline.foldl (usageStep current) acc) =
      match dlookup k baseline, dlookup k current with
      | some b, some c => if c < b then some (b - c) else dlookup k acc
      | some _, none => dlookup k acc
      | none, _ => dlookup k acc := by
  induction baseline with
  | nil => intro acc _; rfl
  | cons p rest ih =>
    intro acc hnd
    rw [List.map_cons, List.nodup_cons] at hnd
    rw [List.foldl_cons, ih (usageStep current acc p) hnd.2]
    by_cases hk : k = p.1
    · subst hk
      rw [dlookup_eq_none_of_not_mem_keys hnd.1, dlookup_cons, if_pos rfl,
        lookup_usageStep_self]
      cases hcur : dlookup p.1 current <;> rfl
    · rw [dlookup_cons, if_neg (fun h => hk h.symm),
        lookup_usageStep_ne current acc p k hk]

/-- Full characterisation of the `tray_usage` map: a key is mapped to
`start - end` exactly when both readings exist and the end reading is
strictly below the start reading; otherwise it is absent. -/
theorem dlookup_computeTrayUsage (baseline current : List ((Nat × Nat) × Int))
    (hnd : (baseline.map Prod.fst).Nodup) (k : Nat × Nat) :
    dlookup k (computeTrayUsage baseline current) =
      match dlookup k baseline, dlookup k current with
      | some b, some c => if c < b then some (b - c) else none
      | _, _ => none := by
  rw [computeTrayUsage, dlookup_foldl_usageStep current baseline k [] hnd]
  cases hb : dlookup k baseline <;> cases hc : dlookup k current <;> rfl

/-! ## Display liveness, command mailbox, broadcast hub (`backend/main.py`) -/

/-- Broadcast message kinds produced by the modelled parts of `main.py`
(payloads reduced to the fields the claims mention). -/
inductive WsMsg where
  | deviceConnected
  | deviceDisconnected
  | printerDisconnected (serial : String)
deriving DecidableEq

/-- `DISPLAY_TIMEOUT_SEC = 10` (main.py line 43). -/
def DISPLAY_TIMEOUT_SEC : Nat := 10

/-- The fixed period of `check_display_timeout`: `await asyncio.sleep(2)`
(main.py line 114). -/
def DISPLAY_CHECK_PERIOD_SEC : Nat := 2

/-- The display liveness globals `_display_last_seen` (0 = never seen,
as in the source's initialiser) and `_display_connected`. -/
structure DisplayState where
  lastSeen : Nat := 0
  connected : Bool := false
deriving DecidableEq

/-- `update_display_heartbeat` (lines 65-82): record the heartbeat time,
mark connected, and broadcast `device_connected` when the display was
previously disconnected. `hasLoop` models the `try get_running_loop /
except RuntimeError: pass` guard around the broadcast. -/
def update_display_heartbeat (st : DisplayState) (now : Nat) (hasLoop : Bool) :
    DisplayState × List WsMsg :=
  let wasConnected := st.connected
  let st' : DisplayState := { lastSeen := now, connected := true }
  (st', if ¬ wasConnected ∧ hasLoop then [WsMsg.deviceConnected] else [])

/-- `is_display_connected` (lines 85-90). -/
def is_display_connected (st : DisplayState) (now : Nat) : Bool :=
  if st.lastSeen = 0 then false
  else decide (now - st.lastSeen < DISPLAY_TIMEOUT_SEC)

/-- One iteration of the `check_display_timeout` loop body (lines 113-119),
after the `sleep(2)`. -/
def check_display_timeout_body (st : DisplayState) (now : Nat) :
    DisplayState × List WsMsg :=
  if st.connected ∧ ¬ is_display_connected st now then
    ({ st with connected := false }, [WsMsg.deviceDisconnected])
  else
    (st, [])

/-- `queue_display_command` (lines 93-97): unconditional overwrite of the
`_display_pending_command` slot. -/
def queue_display_command (pending : Option String) (command : String) :
    Option String :=
  some command

/-- `pop_display_command` (lines 100-105): return the pending command and
clear the slot. -/
def pop_display_command (pending : Option String) :
    Option String × Option String :=
  (pending, none)

/-- `broadcast_message` (lines 122-137) over the `websocket_clients`
registry, with each client's send success given by `sendOk`. Returns the
clients that received the message (in iteration order) and the registry
after `difference_update(disconnected)`. -/
def broadcast_message (clients : List Nat) (sendOk : Nat → Bool) :
    List Nat × List Nat :=
  if clients.isEmpty then ([], clients)
  else
    let r := clients.foldl
      (fun (acc : List Nat × List Nat) ws =>
        if sendOk ws then (acc.1 ++ [ws], acc.2) else (acc.1, acc.2 ++ [ws]))
      ([], [])
    (r.1, clients.filter (fun ws => ! r.2.contains ws))

/-- The registration portion of `websocket_endpoint` (lines 489-516):
`websocket_clients.add(websocket)` runs before the initial-state send, and
a failed send is only logged (`except Exception: logger.warning`), leaving
the membership untouched — `initialSendOk` has no effect on the registry. -/
def registerObserver (clients : List Nat) (ws : Nat) (initialSendOk : Bool) :
    List Nat :=
  let clients' := if clients.contains ws then clients else clients ++ [ws]
  clients'

/-! ## The `main.py` per-printer state layer -/

/-- The `main.py` globals relevant to printer state handling:
`_previous_states` and the `usage_tracker` singleton. -/
structure BackendState where
  previousStates : List (String × PrinterState) := []
  tracker : UsageTracker := {}
deriving DecidableEq

/-- `on_printer_state_update` (lines 190-215): fetch the cached previous
state, run the usage tracker, then cache the new state. -/
def on_printer_state_update (bs : BackendState) (serial : String)
    (state : PrinterState) : BackendState × Option LifecycleOutcome :=
  let prev := dlookup serial bs.previousStates
  let r := on_state_update bs.tracker serial state prev
  ({ previousStates := dinsert bs.previousStates serial state
     tracker := r.1 }, r.2.2)

/-- `on_printer_disconnect` (lines 236-254): drop the cached previous
state for the serial and broadcast `printer_disconnected`; the usage
tracker (and its sessions) is not touched. -/
def on_printer_disconnect (bs : BackendState) (serial : String) :
    BackendState × WsMsg :=
  ({ bs with previousStates := derase bs.previousStates serial },
   WsMsg.printerDisconnected serial)

/-! ## Lemmas about the broadcast hub -/

theorem broadcast_foldl (sendOk : Nat → Bool) :
    ∀ (clients d x : List Nat),
      clients.foldl
        (fun (acc : List Nat × List Nat) ws =>
          if sendOk ws then (acc.1 ++ [ws], acc.2) else (acc.1, acc.2 ++ [ws]))
        (d, x)
      = (d ++ clients.filter sendOk,
         x ++ clients.filter (fun w => ! sendOk w)) := by
  intro clients
  induction clients with
  | nil => intro d x; simp
  | cons c cs ih =>
    intro d x
    rw [List.foldl_cons]
    by_cases h : sendOk c
    · rw [if_pos h, ih]
      simp [List.filter_cons, h]
    · rw [if_neg h, ih]
      simp [List.filter_cons, h]

theorem mem_not_contains_filter_not (clients : List Nat) (sendOk : Nat → Bool)
    (ws : Nat) (hws : ws ∈ clients) :
    (! (clients.filter (fun w => ! sendOk w)).contains ws) = sendOk ws := by
  cases hsk : sendOk ws
  · have hmem : ws ∈ clients.filter (fun w => ! sendOk w) :=
      List.mem_filter.mpr ⟨hws, by simp [hsk]⟩
    simp [List.contains, List.elem_eq_mem, hmem]
  · have hnmem : ws ∉ clients.filter (fun w => ! sendOk w) := by
      intro hm
      have := (List.mem_filter.mp hm).2
      simp [hsk] at this
    simp [hnmem]

/-- `broadcast_message` delivers to exactly the observers whose sends
succeed, and the registry afterwards contains exactly those observers. -/
theorem broadcast_message_spec (clients : List Nat) (sendOk : Nat → Bool) :
    broadcast_message clients sendOk
      = (clients.filter sendOk, clients.filter sendOk) := by
  rw [broadcast_message]
  by_cases hemp : clients.isEmpty
  · rw [if_pos hemp]
    rw [List.isEmpty_iff] at hemp
    subst hemp
    rfl
  · rw [if_neg hemp]
    simp only [broadcast_foldl sendOk clients [] [], List.nil_append]
    refine Prod.ext rfl ?_
    exact List.filter_congr
      (fun ws hws => mem_not_contains_filter_not clients sendOk ws hws)

/-! ## Claim theorems -/

/-- The lifecycle transition rules exactly as the specification states
them (§4.1, first match wins), over the code's phase strings:
running = "RUNNING", finished = "FINISH", idle = "IDLE", paused = "PAUSE".
This is the spec-side definition compared against `on_state_update`. -/
def specLifecycleOutcome (g : String) (pg : Option String) :
    Option LifecycleOutcome :=
  if g = "RUNNING" ∧ pg ≠ some "RUNNING" then
    some .sessionStart
  else if (g = "FINISH" ∨ g = "IDLE") ∧ pg = some "RUNNING" then
    some (.sessionEnd (g == "FINISH"))
  else if g = "FINISH" ∧ pg = some "PAUSE" then
    some (.sessionEnd true)
  else
    none

/-- C1: every `on_state_update(serial, state, prev_state)` call produces at
most one lifecycle outcome (the result is a single `Option`), and the
outcome is exactly the first-match-wins evaluation of the four rules in
the specified order: running from non-running (or null previous) starts a
session; terminal (finished/idle) from running ends it with
success = (finished); finished from paused ends it with success = true;
anything else produces no outcome. -/
theorem C1_lifecycle_rules (t : UsageTracker) (serial : String)
    (state : PrinterState) (prev : Option PrinterState) :
    (on_state_update t serial state prev).2.2
      = specLifecycleOutcome state.gcode_state
          (prev.map (fun s => s.gcode_state)) := by
  simp only [on_state_update, specLifecycleOutcome]
  split_ifs <;> rfl

/-- C4: `broadcast_message` attempts delivery to each registered observer
independently: the observers whose sends succeed all receive the message,
one observer's failure never prevents delivery to the others, and exactly
the observers whose sends failed are removed from the registry. In
particular, with three observers where only the second fails, the first
and third receive the message and the registry keeps exactly them. -/
theorem C4_broadcast_isolation (clients : List Nat) (sendOk : Nat → Bool) :
    (broadcast_message clients sendOk).1 = clients.filter sendOk
    ∧ (broadcast_message clients sendOk).2 = clients.filter sendOk
    ∧ broadcast_message [1, 2, 3] (fun w => w != 2) = ([1, 3], [1, 3]) := by
  refine ⟨?_, ?_, by rfl⟩
  · rw [broadcast_message_spec]
  · rw [broadcast_message_spec]

/-- C5 counterexample: registering an observer whose one-time
initial-state send fails still leaves it in the registry (the source adds
it before the send and only logs the failure), and a subsequent broadcast
does reach it — refuting the claim that a failed initial send keeps the
observer out of the observer set. -/
theorem C5_counterexample :
    registerObserver [] 7 false = [7]
    ∧ (broadcast_message (registerObserver [] 7 false) (fun _ => true)).1
        = [7] := by
  exact ⟨rfl, rfl⟩

/-- C5 (amended): the observer is added to the registry before the
initial-state send, and a failed initial send does not remove it: the
resulting registry is independent of the initial send's outcome and
always contains the observer, which therefore keeps receiving subsequent
broadcasts until one of those sends fails. -/
theorem C5_register_keeps_observer (clients : List Nat) (ws : Nat)
    (initialSendOk : Bool) :
    registerObserver clients ws initialSendOk
      = registerObserver clients ws true
    ∧ ws ∈ registerObserver clients ws initialSendOk := by
  refine ⟨rfl, ?_⟩
  simp only [registerObserver]
  by_cases h : ws ∈ clients <;> simp [h]

/-- C7: the command mailbox is a single overwrite-on-write, clear-on-read
slot: `queue_display_command` overwrites unconditionally (last write
wins), `pop_display_command` returns the pending command and clears the
slot (null when empty); queueing "reboot" then "update" and popping once
yields "update", and a second pop yields null. -/
theorem C7_command_mailbox (pending : Option String) (cmd : String) :
    queue_display_command pending cmd = some cmd
    ∧ pop_display_command pending = (pending, none)
    ∧ pop_display_command (none : Option String) = (none, none)
    ∧ pop_display_command
        (queue_display_command (queue_display_command pending "reboot")
          "update")
        = (some "update", none)
    ∧ pop_display_command
        (pop_display_command
          (queue_display_command (queue_display_command pending "reboot")
            "update")).2
        = (none, none) :=
  ⟨rfl, rfl, rfl, rfl, rfl⟩

/-- C8: `estimate_weight_from_percent` computes
`(remain_percent_used / 100) * label_weight`; it returns 0 when
`remain_percent_used = 0` for every label weight, and its result is
independent of the `core_weight` argument for all inputs. -/
theorem C8_estimate_weight (p l c c' : Int) :
    estimate_weight_from_percent p l c = ((p : ℚ) / 100) * (l : ℚ)
    ∧ estimate_weight_from_percent 0 l c = 0
    ∧ estimate_weight_from_percent p l c
        = estimate_weight_from_percent p l c' := by
  refine ⟨rfl, ?_, rfl⟩
  simp [estimate_weight_from_percent]

/-- C2: at a session end with an active session, the computed slot usage
maps a key to `baseline - current` exactly when the ending snapshot has a
reading for that baseline key and `baseline > current`; keys with a
missing current reading or a non-positive delta are omitted (totally, no
exception), every recorded value is strictly positive, and the remaining
tracked slots are unaffected (the characterisation is per-key). The event
emitted by `onPrintEnd`, when there is one, carries exactly this map. -/
theorem C2_slot_usage (t : UsageTracker) (serial : String)
    (state : PrinterState) (success : Bool) (sess : PrintSession)
    (hs : dlookup serial t.sessions = some sess)
    (hnd : (sess.tray_remain_start.map Prod.fst).Nodup) :
    (∀ k : Nat × Nat,
      dlookup k (computeTrayUsage sess.tray_remain_start (collectRemain state))
        = match dlookup k sess.tray_remain_start,
                dlookup k (collectRemain state) with
          | some b, some c => if c < b then some (b - c) else none
          | _, _ => none)
    ∧ (∀ (k : Nat × Nat) (v : Int),
        dlookup k
            (computeTrayUsage sess.tray_remain_start (collectRemain state))
          = some v → 0 < v)
    ∧ (∀ ev, (onPrintEnd t serial state success).2 = some ev →
        ev.tray_usage
          = computeTrayUsage sess.tray_remain_start (collectRemain state)) := by
  refine ⟨fun k => dlookup_computeTrayUsage _ _ hnd k, ?_, ?_⟩
  · intro k v hv
    rw [dlookup_computeTrayUsage _ _ hnd k] at hv
    split at hv
    · rename_i b c
      split at hv
      · rename_i hlt
        injection hv with hv'
        omega
      · exact absurd hv (by simp)
    · exact absurd hv (by simp)
  · intro ev hev
    simp only [onPrintEnd, hs] at hev
    split at hev
    · injection hev with hev'
      rw [← hev']
    · exact absurd hev (by simp)

/-- Concrete session for the C2 witness: slots `(0,0)` at 80% and `(1,2)`
at 50% tracked at session start. -/
def C2wSession : PrintSession :=
  { printer_serial := "S", print_name := "job",
    tray_remain_start := [((0, 0), 80), ((1, 2), 50)] }

/-- Concrete tracker for the C2 witness. -/
def C2wTracker : UsageTracker :=
  { sessions := [("S", C2wSession)], hasCallback := true, hasLoop := true }

/-- Concrete ending snapshot for the C2 witness: `(0,0)` reads 75%;
slot `(1,2)` is absent. -/
def C2wState : PrinterState :=
  { gcode_state := "FINISH", subtask_name := some "job",
    print_progress := some 100,
    ams_units := [{ id := 0, trays := [{ tray_id := 0, remain := some 75 }] }],
    vt_tray := none, tray_now := some 0 }

/-- C2 witness: the characterisation applied to the concrete session
above (the surviving slot reports 5, the lost slot is omitted). -/
theorem C2_slot_usage_witness :
    dlookup "S" C2wTracker.sessions = some C2wSession
    ∧ (C2wSession.tray_remain_start.map Prod.fst).Nodup
    ∧ ((∀ k : Nat × Nat,
          dlookup k
              (computeTrayUsage C2wSession.tray_remain_start
                (collectRemain C2wState))
            = match dlookup k C2wSession.tray_remain_start,
                    dlookup k (collectRemain C2wState) with
              | some b, some c => if c < b then some (b - c) else none
              | _, _ => none)
        ∧ (∀ (k : Nat × Nat) (v : Int),
            dlookup k
                (computeTrayUsage C2wSession.tray_remain_start
                  (collectRemain C2wState))
              = some v → 0 < v)
        ∧ (∀ ev, (onPrintEnd C2wTracker "S" C2wState true).2 = some ev →
            ev.tray_usage
              = computeTrayUsage C2wSession.tray_remain_start
                  (collectRemain C2wState))) :=
  ⟨by decide, by decide,
    C2_slot_usage C2wTracker "S" C2wState true C2wSession
      (by decide) (by decide)⟩

/-- Concrete tracker for the C3 counterexample: an active session whose
baseline is empty (so the computed usage is empty), with both a usage
callback and an event loop configured. -/
def C3tracker : UsageTracker :=
  { sessions := [("S", { printer_serial := "S", print_name := "job" })],
    hasCallback := true, hasLoop := true }

/-- Concrete terminal snapshot for the C3 counterexample. -/
def C3endState : PrinterState :=
  { gcode_state := "FINISH", subtask_name := some "job",
    print_progress := some 100, ams_units := [], vt_tray := none,
    tray_now := none }

/-- C3 counterexample: a session end with an active session, a configured
callback and loop, and an empty computed slot usage produces NO usage
event — the source guards the callback with `if tray_usage and
self._on_usage_logged:`, so an empty map suppresses the event instead of
being delivered as "nothing to log". -/
theorem C3_counterexample :
    dlookup "S" C3tracker.sessions
        = some { printer_serial := "S", print_name := "job" }
    ∧ C3tracker.hasCallback = true
    ∧ C3tracker.hasLoop = true
    ∧ (computeTrayUsage
        ({ printer_serial := "S",
           print_name := "job" } : PrintSession).tray_remain_start
        (collectRemain C3endState)).isEmpty = true
    ∧ (onPrintEnd C3tracker "S" C3endState true).2 = none := by
  refine ⟨by decide, rfl, rfl, by decide, by decide⟩

/-- C3 (amended): on a session end with an active session, the usage
event is emitted exactly when the computed slot usage is non-empty and
both a usage callback and an event loop are configured; an empty slot
usage (or a missing callback or loop) suppresses the event. When emitted,
the event carries the job name and the computed slot usage. -/
theorem C3_event_iff_usage (t : UsageTracker) (serial : String)
    (state : PrinterState) (success : Bool) (sess : PrintSession)
    (hs : dlookup serial t.sessions = some sess) :
    ((onPrintEnd t serial state success).2.isSome = true ↔
      ((computeTrayUsage sess.tray_remain_start
          (collectRemain state)).isEmpty = false
        ∧ t.hasCallback = true ∧ t.hasLoop = true))
    ∧ (∀ ev, (onPrintEnd t serial state success).2 = some ev →
        ev = ⟨serial, sess.print_name,
              computeTrayUsage sess.tray_remain_start (collectRemain state)⟩) := by
  constructor
  · simp only [onPrintEnd, hs]
    split
    · rename_i h
      simp only [Option.isSome_some, true_iff]
      exact ⟨Bool.not_eq_true _ ▸ (by simpa using h.1), h.2.1, h.2.2⟩
    · rename_i h
      simp only [Option.isSome_none, Bool.false_eq_true, false_iff]
      intro hc
      exact h ⟨by simp [hc.1], hc.2.1, hc.2.2⟩
  · intro ev hev
    simp only [onPrintEnd, hs] at hev
    split at hev
    · injection hev with hev'
      exact hev'.symm
    · exact absurd hev (by simp)

/-- C3 witness for the amended claim: the concrete empty-usage session of
the counterexample satisfies the iff (no event is emitted). -/
theorem C3_event_iff_usage_witness :
    dlookup "S" C3tracker.sessions
        = some { printer_serial := "S", print_name := "job" }
    ∧ (((onPrintEnd C3tracker "S" C3endState true).2.isSome = true ↔
          ((computeTrayUsage
              ({ printer_serial := "S",
                 print_name := "job" } : PrintSession).tray_remain_start
              (collectRemain C3endState)).isEmpty = false
            ∧ C3tracker.hasCallback = true ∧ C3tracker.hasLoop = true))
        ∧ (∀ ev, (onPrintEnd C3tracker "S" C3endState true).2 = some ev →
            ev = ⟨"S", ({ printer_serial := "S",
                          print_name := "job" } : PrintSession).print_name,
                  computeTrayUsage
                    ({ printer_serial := "S",
                       print_name := "job" } : PrintSession).tray_remain_start
                    (collectRemain C3endState)⟩)) :=
  ⟨by decide,
    C3_event_iff_usage C3tracker "S" C3endState true
      { printer_serial := "S", print_name := "job" } (by decide)⟩

/-- C6: display liveness. Every heartbeat sets `last_heartbeat_at` to now
and marks the display connected, emitting `device_connected` exactly when
it was previously disconnected; a periodic check (fixed period 2)
disconnects and emits `device_disconnected` exactly when the display is
connected and `now - last_heartbeat_at >= 10`, and otherwise (already
disconnected, or no heartbeat ever received) changes nothing and emits
nothing. The hypotheses state reachability (`connected` implies a
heartbeat was seen) and monotone time. -/
theorem C6_display_liveness (st : DisplayState) (now : Nat)
    (hreach : st.connected = true → st.lastSeen ≠ 0)
    (hmono : st.lastSeen ≤ now) :
    ((update_display_heartbeat st now true).1.lastSeen = now
      ∧ (update_display_heartbeat st now true).1.connected = true
      ∧ (update_display_heartbeat st now true).2
          = (if st.connected then [] else [WsMsg.deviceConnected]))
    ∧ (check_display_timeout_body st now
        = if st.connected = true ∧ DISPLAY_TIMEOUT_SEC ≤ now - st.lastSeen
          then ({ st with connected := false }, [WsMsg.deviceDisconnected])
          else (st, []))
    ∧ DISPLAY_CHECK_PERIOD_SEC = 2 := by
  refine ⟨⟨rfl, rfl, ?_⟩, ?_, rfl⟩
  · cases hc : st.connected <;> simp [update_display_heartbeat, hc]
  · simp only [check_display_timeout_body, is_display_connected]
    by_cases hc : st.connected = true
    · have hiff : (st.connected = true ∧
          ¬(if st.lastSeen = 0 then false
            else decide (now - st.lastSeen < DISPLAY_TIMEOUT_SEC)) = true)
          ↔ (st.connected = true ∧ DISPLAY_TIMEOUT_SEC ≤ now - st.lastSeen) := by
        rw [if_neg (hreach hc)]
        simp [Nat.not_lt]
      rw [if_congr hiff rfl rfl]
    · rw [if_neg (fun h => hc h.1), if_neg (fun h => hc h.1)]

/-- C6 witness: a connected display last seen at time 5, checked at time
20, times out and emits one `device_disconnected`. -/
theorem C6_display_liveness_witness :
    ((⟨5, true⟩ : DisplayState).connected = true
      → (⟨5, true⟩ : DisplayState).lastSeen ≠ 0)
    ∧ (⟨5, true⟩ : DisplayState).lastSeen ≤ 20
    ∧ (((update_display_heartbeat ⟨5, true⟩ 20 true).1.lastSeen = 20
        ∧ (update_display_heartbeat ⟨5, true⟩ 20 true).1.connected = true
        ∧ (update_display_heartbeat ⟨5, true⟩ 20 true).2
            = (if (⟨5, true⟩ : DisplayState).connected then []
               else [WsMsg.deviceConnected]))
      ∧ (check_display_timeout_body ⟨5, true⟩ 20
          = if (⟨5, true⟩ : DisplayState).connected = true
                ∧ DISPLAY_TIMEOUT_SEC ≤ 20 - (⟨5, true⟩ : DisplayState).lastSeen
            then ({ (⟨5, true⟩ : DisplayState) with connected := false },
                  [WsMsg.deviceDisconnected])
            else (⟨5, true⟩, []))
      ∧ DISPLAY_CHECK_PERIOD_SEC = 2) :=
  ⟨by decide, by decide, C6_display_liveness ⟨5, true⟩ 20 (by decide) (by decide)⟩

/-- C9: `on_printer_disconnect` removes only that device's cached
previous snapshot — the usage tracker (and any active session) is
untouched, and other devices' cached snapshots are unchanged. After a
reconnect the first snapshot is diffed against a null previous state, so
a terminal-phase snapshot observed right after reconnect triggers no
lifecycle outcome and leaves the tracker (hence the surviving session)
unchanged. -/
theorem C9_disconnect_frame (bs : BackendState) (serial : String)
    (state : PrinterState)
    (hterm : state.gcode_state = "FINISH" ∨ state.gcode_state = "IDLE") :
    ((on_printer_disconnect bs serial).1.tracker = bs.tracker)
    ∧ (dlookup serial (on_printer_disconnect bs serial).1.previousStates
        = none)
    ∧ (∀ s' : String, s' ≠ serial →
        dlookup s' (on_printer_disconnect bs serial).1.previousStates
          = dlookup s' bs.previousStates)
    ∧ ((on_printer_state_update (on_printer_disconnect bs serial).1 serial
          state).1.tracker = bs.tracker)
    ∧ ((on_printer_state_update (on_printer_disconnect bs serial).1 serial
          state).2 = none) := by
  have hprev : dlookup serial
      (on_printer_disconnect bs serial).1.previousStates = none := by
    simp [on_printer_disconnect, dlookup_derase]
  have hrun : state.gcode_state ≠ "RUNNING" := by
    rcases hterm with h | h <;> rw [h] <;> decide
  refine ⟨rfl, hprev, ?_, ?_, ?_⟩
  · intro s' hne
    simp [on_printer_disconnect, dlookup_derase, hne]
  · simp only [on_printer_state_update, hprev, Option.map_none']
    simp [on_state_update, hrun, on_printer_disconnect]
  · simp only [on_printer_state_update, hprev, Option.map_none']
    simp [on_state_update, hrun]

/-- C9 witness: disconnecting a device with one cached snapshot and one
active session, then observing a FINISH snapshot. -/
theorem C9_disconnect_frame_witness :
    (C2wState.gcode_state = "FINISH" ∨ C2wState.gcode_state = "IDLE")
    ∧ (((on_printer_disconnect
          { previousStates := [("S", C2wState)], tracker := C2wTracker }
          "S").1.tracker = C2wTracker)
      ∧ (dlookup "S"
          (on_printer_disconnect
            { previousStates := [("S", C2wState)], tracker := C2wTracker }
            "S").1.previousStates = none)
      ∧ (∀ s' : String, s' ≠ "S" →
          dlookup s'
            (on_printer_disconnect
              { previousStates := [("S", C2wState)], tracker := C2wTracker }
              "S").1.previousStates
            = dlookup s'
                ({ previousStates := [("S", C2wState)],
                   tracker := C2wTracker } : BackendState).previousStates)
      ∧ ((on_printer_state_update
            (on_printer_disconnect
              { previousStates := [("S", C2wState)], tracker := C2wTracker }
              "S").1 "S" C2wState).1.tracker = C2wTracker)
      ∧ ((on_printer_state_update
            (on_printer_disconnect
              { previousStates := [("S", C2wState)], tracker := C2wTracker }
              "S").1 "S" C2wState).2 = none)) :=
  ⟨by decide,
    C9_disconnect_frame
      { previousStates := [("S", C2wState)], tracker := C2wTracker }
      "S" C2wState (by decide)⟩

/-- C10: `_on_print_end` always leaves the session map equal to the
previous map with the serial removed — independently of the computed
usage and of whether a callback or loop is configured — so no session
exists for the device after any handled terminal transition; and a
terminal transition with no active session is a complete no-op. -/
theorem C10_session_removed (t : UsageTracker) (serial : String)
    (state : PrinterState) (success : Bool) :
    ((onPrintEnd t serial state success).1.sessions
        = derase t.sessions serial)
    ∧ (dlookup serial (onPrintEnd t serial state success).1.sessions = none)
    ∧ (dlookup serial t.sessions = none →
        onPrintEnd t serial state success = (t, none))
    ∧ (∀ cb lp : Bool,
        (onPrintEnd { t with hasCallback := cb, hasLoop := lp } serial state
            success).1.sessions
          = (onPrintEnd t serial state success).1.sessions) := by
  have hsess : ∀ t' : UsageTracker,
      (onPrintEnd t' serial state success).1.sessions
        = derase t'.sessions serial := by
    intro t'
    cases hl : dlookup serial t'.sessions with
    | none => simp [onPrintEnd, hl, derase_of_dlookup_none hl]
    | some sess =>
      simp only [onPrintEnd, hl]
      split <;> rfl
  refine ⟨hsess t, ?_, ?_, fun cb lp => ?_⟩
  · rw [hsess t, dlookup_derase, if_pos rfl]
  · intro h
    simp [onPrintEnd, h]
  · rw [hsess { t with hasCallback := cb, hasLoop := lp }, hsess t]

/-- C10 witness: a terminal transition with no active session is a no-op
(derived by applying the theorem to the empty tracker). -/
theorem C10_session_removed_witness :
    onPrintEnd ({} : UsageTracker) "S" C3endState true
      = (({} : UsageTracker), none) :=
  (C10_session_removed ({} : UsageTracker) "S" C3endState true).2.2.1
    (by decide)

end SpoolBuddy
